import Mathlib

/-!
Verification of the stapi embedding gateway (`src/main.py`).

The service is a thin HTTP shim around one sentence-transformer model:
`POST /v1/embeddings` normalizes an input that is either one string or a
list of strings into a list of embedding results with per-item indices and
aggregate token counts; `verify_api_key` optionally enforces bearer-token
authentication; `GET /healthz` and `GET /` return a constant payload.

We embed the request handlers shallowly: the model's `encode` call is an
abstract parameter `enc : String → List Int` (the service treats vectors as
opaque data, only their identity and length matter), process globals
(`model_name`, `api_key`) are explicit parameters, Python's dynamically
typed `input` field is a `PyValue`, and a raised `HTTPException` is the
`Except.error` branch of the handler's result.
-/

namespace Stapi

/-- Dynamically typed (Python-level) value for the request's `input` field:
a string, a list of values, or a non-string scalar such as the integer 123. -/
inductive PyValue : Type where
  | str (s : String)
  | list (xs : List PyValue)
  | int (n : Int)

/-- Mirrors fastapi's `HTTPException`: a status code, a detail message, and
optional extra response headers (`[]` when the source passes none). -/
structure HTTPException : Type where
  status_code : Nat
  detail : String
  headers : List (String × String)
deriving DecidableEq, Repr

/-- Mirrors `EmbeddingRequest` (`src/main.py` lines 33-40): the `input` field
kept at its dynamic type, and the `model` field with its request-supplied
value (its default is the configured model name). -/
structure EmbeddingRequest : Type where
  input : PyValue
  model : String

/-- Mirrors `EmbeddingData` (`src/main.py` lines 43-46). -/
structure EmbeddingData : Type where
  embedding : List Int
  index : Nat
  object : String
deriving DecidableEq, Repr

/-- Mirrors `Usage` (`src/main.py` lines 49-51). -/
structure Usage : Type where
  prompt_tokens : Nat
  total_tokens : Nat
deriving DecidableEq, Repr

/-- Mirrors `EmbeddingResponse` (`src/main.py` lines 54-58). -/
structure EmbeddingResponse : Type where
  data : List EmbeddingData
  model : String
  usage : Usage
  object : String
deriving DecidableEq, Repr

/-- Python truthiness of the `api_key` global (`Optional[str]`): truthy
exactly when present and non-empty. -/
def truthy : Option String → Bool
  | some s => !s.isEmpty
  | none => false

/-- Mirrors `verify_api_key` (`src/main.py` lines 15-30). `credentials` is
the bearer token of the `Authorization: Bearer` header when one was parsed
(`HTTPBearer(auto_error=False)` hands the handler `None` otherwise). -/
def verify_api_key (api_key : Option String) (credentials : Option String) :
    Except HTTPException (Option String) :=
  if truthy api_key then
    match credentials with
    | none =>
        Except.error
          { status_code := 401, detail := "API key required"
            headers := [("WWW-Authenticate", "Bearer")] }
    | some c =>
        if c ≠ api_key.getD "" then
          Except.error
            { status_code := 401, detail := "Invalid API key"
              headers := [("WWW-Authenticate", "Bearer")] }
        else
          Except.ok (some c)
  else
    Except.ok none

/-- The fixed 400 error raised on invalid input shape
(`src/main.py` lines 89-93 and 105-107). -/
def badRequest : HTTPException :=
  { status_code := 400
    detail := "input needs to be an array of strings or a string"
    headers := [] }

/-- Loop body of the list branch of `embedding` (`src/main.py` lines 85-98):
iterate entries in order starting at position `index`; a non-string entry
raises the fixed 400 error and aborts the whole request; a string entry is
encoded, appended with its position, and its vector length added to the
running token sum. -/
def embedItems (enc : String → List Int) :
    List PyValue → Nat → Except HTTPException (List EmbeddingData × Nat)
  | [], _ => Except.ok ([], 0)
  | v :: rest, index =>
    match v with
    | PyValue.str s =>
        let vectors := enc s
        match embedItems enc rest (index + 1) with
        | Except.ok (ds, tokens) =>
            Except.ok
              ({ embedding := vectors, index := index, object := "embedding" } :: ds,
                vectors.length + tokens)
        | Except.error e => Except.error e
    | _ => Except.error badRequest

/-- Mirrors the body of the `embedding` handler (`src/main.py` lines 70-107),
after dependency resolution: scalar branch, list branch, else the fixed 400.
`model_name` is the process-global configured model name; `enc` is
`models[model_name].encode`. The handler never reads `item.model`. -/
def embedding (enc : String → List Int) (model_name : String)
    (item : EmbeddingRequest) : Except HTTPException EmbeddingResponse :=
  match item.input with
  | PyValue.str s =>
      let vectors := enc s
      let tokens := vectors.length
      Except.ok
        { data := [{ embedding := vectors, index := 0, object := "embedding" }]
          model := model_name
          usage := { prompt_tokens := tokens, total_tokens := tokens }
          object := "list" }
  | PyValue.list xs =>
      match embedItems enc xs 0 with
      | Except.ok (ds, tokens) =>
          Except.ok
            { data := ds
              model := model_name
              usage := { prompt_tokens := tokens, total_tokens := tokens }
              object := "list" }
      | Except.error e => Except.error e
  | _ => Except.error badRequest

/-- The `POST /v1/embeddings` route as fastapi runs it: the `Depends`
on `verify_api_key` executes first, and a raised `HTTPException` short
circuits the request before the handler body runs. -/
def handleEmbeddings (enc : String → List Int) (model_name : String)
    (api_key : Option String) (credentials : Option String)
    (item : EmbeddingRequest) : Except HTTPException EmbeddingResponse :=
  match verify_api_key api_key credentials with
  | Except.error e => Except.error e
  | Except.ok _ => embedding enc model_name item

/-- Mirrors the `healthz` handler (`src/main.py` lines 110-113), serving both
`GET /` and `GET /healthz`: a constant payload. The route declares no
auth dependency, so the request's credentials and the configured key are
ignored parameters. -/
def handleHealthz (api_key : Option String) (credentials : Option String) :
    Except HTTPException (List (String × String)) :=
  Except.ok [("status", "ok")]

/-- HTTP status of a handler result: fastapi returns 200 on a normal return
and the exception's status code on a raised `HTTPException`. -/
def statusOf {α : Type} : Except HTTPException α → Nat
  | Except.ok _ => 200
  | Except.error e => e.status_code

/-- Tests whether `input` is a (Python) string. -/
def PyValue.isStr : PyValue → Bool
  | PyValue.str _ => true
  | _ => false

/-- Tests whether `input` is a list every element of which is a string. -/
def isStringList : PyValue → Bool
  | PyValue.list xs => xs.all PyValue.isStr
  | _ => false


/-- A concrete stand-in for the model's `encode`, used to instantiate the
parametric theorems at concrete inputs. -/
def encLen : String → List Int := fun s => [Int.ofNat s.length, 7]

/-- The response the handler builds for the single string "ab" under
`encLen`. -/
def respEx : EmbeddingResponse :=
  { data := [{ embedding := encLen "ab", index := 0, object := "embedding" }]
    model := "all-MiniLM-L6-v2"
    usage := { prompt_tokens := (encLen "ab").length
               total_tokens := (encLen "ab").length }
    object := "list" }

/-- A concrete valid request. -/
def reqEx : EmbeddingRequest :=
  { input := PyValue.str "a", model := "all-MiniLM-L6-v2" }

/-- The 401 error `verify_api_key` raises when credentials are absent. -/
def authFailEx : HTTPException :=
  { status_code := 401, detail := "API key required"
    headers := [("WWW-Authenticate", "Bearer")] }

/-- Running `embedItems` over a list of strings (mapped into `PyValue`)
starting at position `k` succeeds, with tokens the sum of the vector
lengths, indices `k, k+1, ...`, and embeddings the encodings in order. -/
theorem embedItems_map_str (enc : String → List Int) (ss : List String) (k : Nat) :
    ∃ ds : List EmbeddingData,
      embedItems enc (ss.map PyValue.str) k =
        Except.ok (ds, (ss.map fun s => (enc s).length).sum) ∧
      ds.map EmbeddingData.index = List.range' k ss.length ∧
      ds.map EmbeddingData.embedding = ss.map enc := by
  induction ss generalizing k with
  | nil => exact ⟨[], rfl, rfl, rfl⟩
  | cons s rest ih =>
    obtain ⟨ds, h1, h2, h3⟩ := ih (k + 1)
    refine ⟨{ embedding := enc s, index := k, object := "embedding" } :: ds, ?_, ?_, ?_⟩
    · simp only [List.map_cons, embedItems, h1, List.sum_cons]
    · simp only [List.map_cons, h2, List.length_cons, List.range'_succ]
    · simp only [List.map_cons, h3]

/-- A list that passes `List.all PyValue.isStr` is a mapped list of strings. -/
theorem all_isStr_exists_map (xs : List PyValue) (h : xs.all PyValue.isStr = true) :
    ∃ ss : List String, xs = ss.map PyValue.str := by
  induction xs with
  | nil => exact ⟨[], rfl⟩
  | cons v rest ih =>
    simp only [List.all_cons, Bool.and_eq_true] at h
    obtain ⟨ss, hss⟩ := ih h.2
    cases v with
    | str s => exact ⟨s :: ss, by simp [hss]⟩
    | list l => simp [PyValue.isStr] at h
    | int n => simp [PyValue.isStr] at h

/-- The loop aborts with the fixed 400 error as soon as the list holds a
non-string entry. -/
theorem embedItems_badRequest (enc : String → List Int) (xs : List PyValue) (k : Nat)
    (h : ¬ xs.all PyValue.isStr = true) :
    embedItems enc xs k = Except.error badRequest := by
  induction xs generalizing k with
  | nil => simp at h
  | cons v rest ih =>
    simp only [List.all_cons, Bool.and_eq_true, not_and] at h
    cases v with
    | str s =>
      have hrest : ¬ rest.all PyValue.isStr = true := h rfl
      simp only [embedItems]
      rw [ih (k + 1) hrest]
    | list l => simp only [embedItems]
    | int n => simp only [embedItems]

/-- The accumulated token count of a successful loop run is the sum of the
produced embedding vector lengths. -/
theorem embedItems_tokens (enc : String → List Int) (xs : List PyValue) (k : Nat)
    (ds : List EmbeddingData) (t : Nat)
    (h : embedItems enc xs k = Except.ok (ds, t)) :
    t = (ds.map fun d => d.embedding.length).sum := by
  induction xs generalizing k ds t with
  | nil =>
    simp only [embedItems, Except.ok.injEq, Prod.mk.injEq] at h
    simp [← h.1, ← h.2]
  | cons v rest ih =>
    cases v with
    | str s =>
      cases hrec : embedItems enc rest (k + 1) with
      | ok p =>
        obtain ⟨ds0, t0⟩ := p
        simp only [embedItems, hrec, Except.ok.injEq, Prod.mk.injEq] at h
        obtain ⟨hds, ht⟩ := h
        subst hds
        simp [← ht, ih (k + 1) ds0 t0 hrec]
      | error e => simp [embedItems, hrec] at h
    | list l => simp [embedItems] at h
    | int n => simp [embedItems] at h

/-- Every successful response of the handler carries the configured model
name in its `model` field, and mirrors the token sum in both usage fields. -/
theorem embedding_ok_shape (enc : String → List Int) (model_name : String)
    (item : EmbeddingRequest) (r : EmbeddingResponse)
    (h : embedding enc model_name item = Except.ok r) :
    r.model = model_name ∧ r.usage.prompt_tokens = r.usage.total_tokens ∧
    r.usage.total_tokens = (r.data.map fun d => d.embedding.length).sum ∧
    r.object = "list" := by
  cases hi : item.input with
  | str s =>
    simp only [embedding, hi, Except.ok.injEq] at h
    subst h
    simp
  | list xs =>
    cases hrec : embedItems enc xs 0 with
    | ok p =>
      obtain ⟨ds, t⟩ := p
      simp only [embedding, hi, hrec, Except.ok.injEq] at h
      subst h
      exact ⟨rfl, rfl, embedItems_tokens enc xs 0 ds t hrec, rfl⟩
    | error e => simp [embedding, hi, hrec] at h
  | int n => simp [embedding, hi] at h


/-- Claim C1: for every ordered list of strings given as the `input` field,
the response's data sequence has the input's length, indices run 0, 1, ...
in original input order (`data.map index = range n`), each entry's embedding
is the model's encoding of the corresponding input string in order
(`data.map embedding = ss.map enc`), and `total_tokens` is the sum of the
entries' embedding-vector lengths. -/
theorem C1_list_input (enc : String → List Int) (model_name m : String)
    (ss : List String) :
    ∃ r : EmbeddingResponse,
      embedding enc model_name
          { input := PyValue.list (ss.map PyValue.str), model := m } =
        Except.ok r ∧
      r.data.length = ss.length ∧
      r.data.map EmbeddingData.index = List.range ss.length ∧
      r.data.map EmbeddingData.embedding = ss.map enc ∧
      r.usage.total_tokens = (r.data.map fun d => d.embedding.length).sum := by
  obtain ⟨ds, h1, h2, h3⟩ := embedItems_map_str enc ss 0
  have hlen : ds.length = ss.length := by
    have := congrArg List.length h3
    simpa using this
  have hsum : (ds.map fun d => d.embedding.length).sum =
      (ss.map fun s => (enc s).length).sum := by
    have : (ds.map fun d => d.embedding.length) =
        (ds.map EmbeddingData.embedding).map List.length := by
      simp [List.map_map]
    rw [this, h3, List.map_map]
    rfl
  refine ⟨{ data := ds, model := model_name
            usage := { prompt_tokens := (ss.map fun s => (enc s).length).sum
                       total_tokens := (ss.map fun s => (enc s).length).sum }
            object := "list" }, ?_, hlen, ?_, h3, ?_⟩
  · simp only [embedding, h1]
  · rw [h2, List.range_eq_range']
  · simp [hsum]

/-- Claim C2: for a single string `s` as `input`, the response holds exactly
one EmbeddingData, at index 0, whose embedding is the model's encoding of
`s`, and both `prompt_tokens` and `total_tokens` equal that vector's
length. -/
theorem C2_scalar_input (enc : String → List Int) (model_name m s : String) :
    ∃ r : EmbeddingResponse,
      embedding enc model_name { input := PyValue.str s, model := m } =
        Except.ok r ∧
      r.data = [{ embedding := enc s, index := 0, object := "embedding" }] ∧
      r.usage.prompt_tokens = (enc s).length ∧
      r.usage.total_tokens = (enc s).length :=
  ⟨_, rfl, rfl, rfl, rfl⟩

/-- Claim C10: the empty list as `input` succeeds (HTTP 200) with empty data
and zero token counts. -/
theorem C10_empty_list (enc : String → List Int) (model_name m : String) :
    embedding enc model_name { input := PyValue.list [], model := m } =
      Except.ok { data := [], model := model_name
                  usage := { prompt_tokens := 0, total_tokens := 0 }
                  object := "list" } ∧
    statusOf (embedding enc model_name { input := PyValue.list [], model := m }) =
      200 :=
  ⟨rfl, rfl⟩


/-- Claim C3: the handler fails with the fixed 400 BadRequest (status 400,
message "input needs to be an array of strings or a string") exactly when
`input` is neither a string nor a list of strings; moreover every failure of
the handler is that fixed 400 error, so a failing request returns no
embeddings at all (the result is an error, never a partial response). -/
theorem C3_invalid_input_iff (enc : String → List Int) (model_name : String)
    (item : EmbeddingRequest) :
    (embedding enc model_name item = Except.error badRequest ↔
      ¬(item.input.isStr = true ∨ isStringList item.input = true)) ∧
    (∀ e, embedding enc model_name item = Except.error e → e = badRequest) := by
  cases hi : item.input with
  | str s =>
    constructor
    · simp [embedding, hi, PyValue.isStr]
    · intro e he
      simp [embedding, hi] at he
  | list xs =>
    by_cases hall : xs.all PyValue.isStr = true
    · obtain ⟨ss, hss⟩ := all_isStr_exists_map xs hall
      subst hss
      obtain ⟨ds, h1, h2, h3⟩ := embedItems_map_str enc ss 0
      constructor
      · simp [embedding, hi, h1, isStringList, hall]
      · intro e he
        simp [embedding, hi, h1] at he
    · have herr := embedItems_badRequest enc xs 0 hall
      constructor
      · simp [embedding, hi, herr, isStringList, hall, PyValue.isStr]
      · intro e he
        simp only [embedding, hi, herr, Except.error.injEq] at he
        exact he.symm
  | int n =>
    constructor
    · simp [embedding, hi, isStringList, PyValue.isStr]
    · intro e he
      simp only [embedding, hi, Except.error.injEq] at he
      exact he.symm

/-- Claim C4: with a non-empty API key `k` configured, `verify_api_key`
rejects with a 401 error carrying a `WWW-Authenticate: Bearer` header
exactly when the request presents no bearer credentials or a token different
from `k`; presenting exactly `k` passes authentication. -/
theorem C4_auth_enforced (k : String) (hk : k ≠ "") (credentials : Option String) :
    ((∃ e, verify_api_key (some k) credentials = Except.error e ∧
        e.status_code = 401 ∧ e.headers = [("WWW-Authenticate", "Bearer")]) ↔
      credentials ≠ some k) ∧
    verify_api_key (some k) (some k) = Except.ok (some k) := by
  have htr : truthy (some k) = true := by
    have h0 : k.isEmpty = false := by
      rw [Bool.eq_false_iff]
      simpa [String.isEmpty_iff] using hk
    simp [truthy, h0]
  constructor
  · cases credentials with
    | none =>
      simp only [verify_api_key, htr, if_true]
      constructor
      · intro _
        simp
      · intro _
        exact ⟨_, rfl, rfl, rfl⟩
    | some c =>
      simp only [verify_api_key, htr, if_true, Option.getD_some]
      by_cases hc : c = k
      · subst hc
        simp
      · simp only [ne_eq, hc, not_false_eq_true, if_true, Option.some.injEq, hc]
        constructor
        · intro _
          simp [hc]
        · intro _
          exact ⟨_, rfl, rfl, rfl⟩
  · simp [verify_api_key, htr]

/-- Claim C5: two requests differing only in the body's `model` field get
identical responses, and every successful response's `model` field is the
configured default model name, never the requested one. -/
theorem C5_model_field_ignored (enc : String → List Int) (model_name : String)
    (input : PyValue) (m1 m2 : String) :
    embedding enc model_name { input := input, model := m1 } =
      embedding enc model_name { input := input, model := m2 } ∧
    (∀ r, embedding enc model_name { input := input, model := m1 } =
        Except.ok r → r.model = model_name) := by
  refine ⟨rfl, fun r h => ?_⟩
  exact (embedding_ok_shape enc model_name _ r h).1

/-- Claim C6: with no API key configured (unset, or set to the empty string,
which Python treats as falsy), `verify_api_key` accepts every request
whatever credentials it carries, and the request's outcome is independent of
the supplied credentials. -/
theorem C6_no_key_accepts_all (credentials c1 c2 : Option String)
    (enc : String → List Int) (model_name : String) (item : EmbeddingRequest) :
    verify_api_key none credentials = Except.ok none ∧
    verify_api_key (some "") credentials = Except.ok none ∧
    handleEmbeddings enc model_name none c1 item =
      handleEmbeddings enc model_name none c2 item ∧
    handleEmbeddings enc model_name (some "") c1 item =
      handleEmbeddings enc model_name (some "") c2 item := by
  refine ⟨rfl, ?_, rfl, ?_⟩ <;> rfl

/-- Claim C7: every successful response has `prompt_tokens = total_tokens`,
and both equal the summed dimensionality of the returned embedding vectors
(for a single string, that one vector's length), not a real token count. -/
theorem C7_usage_dimensionality (enc : String → List Int) (model_name : String)
    (item : EmbeddingRequest) (r : EmbeddingResponse)
    (h : embedding enc model_name item = Except.ok r) :
    r.usage.prompt_tokens = r.usage.total_tokens ∧
    r.usage.total_tokens = (r.data.map fun d => d.embedding.length).sum :=
  ⟨(embedding_ok_shape enc model_name item r h).2.1,
   (embedding_ok_shape enc model_name item r h).2.2.1⟩

/-- Claim C8: `GET /healthz` and `GET /` return the constant payload
`status: ok` with HTTP 200 for every request, whatever the configured key
and the supplied credentials. -/
theorem C8_health_constant (api_key credentials : Option String) :
    handleHealthz api_key credentials = Except.ok [("status", "ok")] ∧
    statusOf (handleHealthz api_key credentials) = 200 :=
  ⟨rfl, rfl⟩

/-- Claim C9: when authentication fails, the route's result is that auth
error, and it is the same whatever encoding function the model implements:
a rejected request never invokes the embedding computation. -/
theorem C9_auth_before_inference (enc1 enc2 : String → List Int)
    (model_name : String) (api_key credentials : Option String)
    (item : EmbeddingRequest) (e : HTTPException)
    (h : verify_api_key api_key credentials = Except.error e) :
    handleEmbeddings enc1 model_name api_key credentials item =
      Except.error e ∧
    handleEmbeddings enc1 model_name api_key credentials item =
      handleEmbeddings enc2 model_name api_key credentials item := by
  unfold handleEmbeddings
  rw [h]
  exact ⟨rfl, rfl⟩

/-- Witness for C4 at the concrete key "secret" and token "wrong". -/
theorem C4_auth_enforced_witness :
    ("secret" : String) ≠ "" ∧
    (((∃ e, verify_api_key (some "secret") (some "wrong") = Except.error e ∧
        e.status_code = 401 ∧ e.headers = [("WWW-Authenticate", "Bearer")]) ↔
      (some "wrong" : Option String) ≠ some "secret") ∧
      verify_api_key (some "secret") (some "secret") = Except.ok (some "secret")) :=
  ⟨by decide, C4_auth_enforced "secret" (by decide) (some "wrong")⟩

/-- Witness for C7 at the concrete request with input "ab" under `encLen`. -/
theorem C7_usage_dimensionality_witness :
    embedding encLen "all-MiniLM-L6-v2"
        { input := PyValue.str "ab", model := "all-MiniLM-L6-v2" } =
      Except.ok respEx ∧
    (respEx.usage.prompt_tokens = respEx.usage.total_tokens ∧
     respEx.usage.total_tokens = (respEx.data.map fun d => d.embedding.length).sum) :=
  ⟨rfl, C7_usage_dimensionality encLen "all-MiniLM-L6-v2"
    { input := PyValue.str "ab", model := "all-MiniLM-L6-v2" } respEx rfl⟩

/-- Witness for C9 at the concrete key "secret" with no credentials. -/
theorem C9_auth_before_inference_witness :
    (handleEmbeddings encLen "all-MiniLM-L6-v2" (some "secret") none reqEx =
      Except.error authFailEx) ∧
    handleEmbeddings encLen "all-MiniLM-L6-v2" (some "secret") none reqEx =
      handleEmbeddings encLen "all-MiniLM-L6-v2" (some "secret") none reqEx :=
  C9_auth_before_inference encLen encLen "all-MiniLM-L6-v2" (some "secret") none
    reqEx authFailEx rfl

end Stapi
